import Mathlib

/-!
Shallow embedding of `src/server.py` (Text Utilities MCP server) and proofs
of the specification's claims about it.

The Python program consists of:
* a static tool catalog `TOOLS`;
* `handle_tool_call(name, arguments)` executing one tool;
* `handle_message(message)` — the dispatcher, mapping one inbound JSON-RPC
  message to an optional response;
* a session store `active_sessions : Dict[str, asyncio.Queue]`;
* the SSE endpoint (creates a session, drains its queue, cleans up);
* the message endpoint (resolves a session, parses a body, dispatches,
  enqueues the response, acknowledges with 202).

Python dictionaries are embedded as association lists with unique keys
(`dictGet` / `dictDel`); `asyncio.Queue` objects are embedded as a heap of
FIFO lists indexed by a queue handle, separate from the session map, so that
the aliasing in the Python code (the handler holds a reference to the queue
object while the dict entry may be deleted concurrently) is representable.
`random.shuffle` is embedded as the Fisher–Yates loop CPython runs, with the
random draws supplied explicitly as a `RandState`, so the dispatcher becomes
a function of the message and the RNG state.
-/

namespace MCPServer

/-- A JSON-RPC message id as it appears on the wire: a number or a string.
`Option RpcId` models a Python value that may be `None` / absent. -/
inductive RpcId where
  | num (n : Int)
  | str (s : String)
deriving DecidableEq, Repr

/-- One content block of a tool result: `{"type": ..., "text": ...}`. -/
structure ContentBlock where
  type : String
  text : String
deriving DecidableEq, Repr

/-- The dictionary returned by `handle_tool_call`: a `"content"` list and an
optional `"isError"` flag.  In the Python code the key is simply absent when
the call succeeded; `isError = false` embeds the absent key. -/
structure ToolResult where
  content : List ContentBlock
  isError : Bool
deriving DecidableEq, Repr

/-- One entry of the `TOOLS` catalog: name, description, and the description
of its single `text` parameter (the only schema content the entries carry). -/
structure Tool where
  name : String
  description : String
  textParamDescription : String
deriving DecidableEq, Repr

/-- The `TOOLS` list from `server.py` (lines 28–113). -/
def TOOLS : List Tool :=
  [ ⟨"reverse_text", "Reverses the order of characters in the given text",
      "The text to reverse"⟩,
    ⟨"uppercase_text", "Converts text to uppercase",
      "The text to convert to uppercase"⟩,
    ⟨"lowercase_text", "Converts text to lowercase",
      "The text to convert to lowercase"⟩,
    ⟨"word_count", "Counts the number of words in the given text",
      "The text to count words in"⟩,
    ⟨"character_count",
      "Counts the number of characters (including spaces) in the given text",
      "The text to count characters in"⟩,
    ⟨"shuffle_text", "Randomly shuffles the characters in the given text",
      "The text to shuffle"⟩ ]

/-- The `"arguments"` object of a `tools/call`: the code only ever reads
`arguments.get("text", "")`, where the value may be absent. -/
structure Args where
  text : Option String
deriving DecidableEq, Repr

/-- `params.get("name")` and `params.get("arguments", \x7b\x7d)`. -/
structure Params where
  name : Option String
  arguments : Option Args
deriving DecidableEq, Repr

/-- An inbound protocol message as the dispatcher reads it:
`message.get("method")`, `message.get("id")`, `message.get("params", \x7b\x7d)`.
Each field may be absent. -/
structure InMessage where
  method : Option String
  id : Option RpcId
  params : Option Params
deriving DecidableEq, Repr

/-- A JSON-RPC error object: `code` and `message`. -/
structure RpcError where
  code : Int
  message : String
deriving DecidableEq, Repr

/-- The `"result"` payload of a response produced by `handle_message`,
one constructor per dict shape the code builds. -/
inductive ResultPayload where
  | initResult (protocolVersion serverName serverVersion : String)
  | toolsList (tools : List Tool)
  | toolCall (r : ToolResult)
  | empty
deriving DecidableEq, Repr

/-- An outbound response dict: `"jsonrpc"`, `"id"` (echoed, possibly null),
and exactly one of `"result"` / `"error"`. -/
structure OutResponse where
  jsonrpc : String
  id : Option RpcId
  result? : Option ResultPayload
  error? : Option RpcError
deriving DecidableEq, Repr

/-- How Python renders an optional string inside an f-string:
`f"...\x7bname\x7d"` prints the string itself, or `None` when the value is
`None`. -/
def pyStr : Option String → String
  | none => "None"
  | some s => s

/-- The pending random draws consumed by `random.shuffle`; each draw is
reduced modulo the bound the algorithm requests.  An exhausted list draws 0. -/
def RandState := List Nat
deriving DecidableEq, Repr

/-- One bounded draw of the RNG (CPython's `randbelow(n)`). -/
def randbelow (n : Nat) : RandState → Nat × RandState
  | [] => (0, [])
  | k :: rest => (k % n, rest)

/-- Swap the elements at positions `i` and `j` of a list (Python
`x[i], x[j] = x[j], x[i]`); out-of-range indices leave the list unchanged. -/
def listSwap {α : Type} (l : List α) (i j : Nat) : List α :=
  match l.get? i, l.get? j with
  | some a, some b => (l.set i b).set j a
  | _, _ => l

/-- The Fisher–Yates loop of `random.shuffle`:
`for i in reversed(range(1, len(x))): j = randbelow(i+1); swap x[i], x[j]`.
The first argument is the current top index `i`. -/
def shuffleSteps : Nat → List Char → RandState → List Char × RandState
  | 0, l, s => (l, s)
  | Nat.succ i, l, s =>
      let (j, s') := randbelow (i + 2) s
      shuffleSteps i (listSwap l (i + 1) j) s'

/-- `random.shuffle` on the character list of a string. -/
def pyShuffle (l : List Char) (s : RandState) : List Char × RandState :=
  shuffleSteps (l.length - 1) l s

/-- Python `text.split()` followed by the (redundant) `if w` filter:
split on whitespace runs, dropping empty pieces. -/
def pySplitWords (text : String) : List String :=
  (text.split Char.isWhitespace).filter (fun w => w ≠ "")

/-- The `"s"` / `""` plural suffix the counting tools compute. -/
def pluralSuffix (count : Nat) : String :=
  if count ≠ 1 then "s" else ""

/-- `handle_tool_call` (`server.py` lines 115–149).  `name` is
`params.get("name")` (possibly `None`); `arguments.get("text", "")` defaults
the text to the empty string.  The RNG state is threaded through because
`shuffle_text` consumes random draws; every other branch returns it
untouched. -/
def handle_tool_call (name : Option String) (arguments : Args)
    (rng : RandState) : ToolResult × RandState :=
  let text := arguments.text.getD ""
  if name = some "reverse_text" then
    (⟨[⟨"text", "Reversed text: " ++ String.mk text.data.reverse⟩], false⟩, rng)
  else if name = some "uppercase_text" then
    (⟨[⟨"text", "Uppercase: " ++ text.map Char.toUpper⟩], false⟩, rng)
  else if name = some "lowercase_text" then
    (⟨[⟨"text", "Lowercase: " ++ text.map Char.toLower⟩], false⟩, rng)
  else if name = some "word_count" then
    let count := (pySplitWords text).length
    (⟨[⟨"text", "Word count: " ++ toString count ++ " word"
        ++ pluralSuffix count⟩], false⟩, rng)
  else if name = some "character_count" then
    let count := text.length
    (⟨[⟨"text", "Character count: " ++ toString count ++ " character"
        ++ pluralSuffix count⟩], false⟩, rng)
  else if name = some "shuffle_text" then
    let shuffled := pyShuffle text.data rng
    (⟨[⟨"text", "Shuffled text: " ++ String.mk shuffled.1⟩], false⟩, shuffled.2)
  else
    (⟨[⟨"text", "Unknown tool: " ++ pyStr name⟩], true⟩, rng)

/-- `handle_message` (`server.py` lines 151–214): the dispatcher.  Returns
`none` for `notifications/initialized`, otherwise exactly one response whose
`id` echoes the inbound id.  The RNG state is threaded for `tools/call`. -/
def handle_message (message : InMessage) (rng : RandState) :
    Option OutResponse × RandState :=
  let method := message.method
  let msg_id := message.id
  let params := message.params.getD ⟨none, none⟩
  if method = some "initialize" then
    (some { jsonrpc := "2.0", id := msg_id,
            result? := some (.initResult "2024-11-05"
              "text-utilities-mcp-python" "1.0.0"),
            error? := none }, rng)
  else if method = some "notifications/initialized" then
    (none, rng)
  else if method = some "tools/list" then
    (some { jsonrpc := "2.0", id := msg_id,
            result? := some (.toolsList TOOLS), error? := none }, rng)
  else if method = some "tools/call" then
    let tool_name := params.name
    let arguments := params.arguments.getD ⟨none⟩
    let called := handle_tool_call tool_name arguments rng
    (some { jsonrpc := "2.0", id := msg_id,
            result? := some (.toolCall called.1), error? := none }, called.2)
  else if method = some "ping" then
    (some { jsonrpc := "2.0", id := msg_id,
            result? := some .empty, error? := none }, rng)
  else
    (some { jsonrpc := "2.0", id := msg_id, result? := none,
            error? := some ⟨-32601, "Method not found: " ++ pyStr method⟩ },
     rng)

/-- `d.get(k)` on a Python dict embedded as an association list with unique
keys: the value at `k`, or `None`. -/
def dictGet {κ α : Type} [DecidableEq κ] (d : List (κ × α)) (k : κ) :
    Option α :=
  match d with
  | [] => none
  | (k', v) :: rest => if k' = k then some v else dictGet rest k

/-- `del d[k]` on a Python dict embedded as an association list: removes the
entry for `k` (every occurrence — a Python dict holds at most one). -/
def dictDel {κ α : Type} [DecidableEq κ] (d : List (κ × α)) (k : κ) :
    List (κ × α) :=
  match d with
  | [] => []
  | (k', v) :: rest => if k' = k then dictDel rest k
                       else (k', v) :: dictDel rest k

/-- The server's shared mutable state.  `sessions` embeds
`active_sessions : Dict[str, asyncio.Queue]`, but the dict values are
*handles* (indices) into a separate `queues` heap of FIFO lists, because in
Python the dict entry and the queue object have distinct lifetimes: deleting
the dict entry does not destroy the queue object a handler already holds a
reference to. -/
structure ServerState where
  sessions : List (String × Nat)
  queues : List (Nat × List OutResponse)
deriving DecidableEq, Repr

/-- `queue.put(m)` on the heap: appends `m` to the FIFO list of the queue
with handle `q` (an `asyncio.Queue` is unbounded here, so `put` always
succeeds).  A handle not yet in the heap denotes a fresh empty queue. -/
def heapPut (h : List (Nat × List OutResponse)) (q : Nat) (m : OutResponse) :
    List (Nat × List OutResponse) :=
  match h with
  | [] => [(q, [m])]
  | (q', l) :: rest =>
      if q' = q then (q', l ++ [m]) :: rest else (q', l) :: heapPut rest q m

/-- The contents of the queue with handle `q` (empty when untouched). -/
def qContents (h : List (Nat × List OutResponse)) (q : Nat) :
    List OutResponse :=
  (dictGet h q).getD []

/-- One `queue.get()` step: the front message and the rest, or `none` when
the queue is empty (in the Python code an empty queue blocks until timeout;
the stream loop only ever observes the dequeued values in this order). -/
def queueGet {α : Type} : List α → Option (α × List α)
  | [] => none
  | x :: rest => some (x, rest)

/-- Repeatedly `queue.get()` while messages remain, up to `fuel` steps,
collecting the dequeued messages in order. -/
def drainAux {α : Type} : Nat → List α → List α
  | 0, _ => []
  | Nat.succ fuel, q =>
      match queueGet q with
      | none => []
      | some p => p.1 :: drainAux fuel p.2

/-- Repeatedly `queue.get()` until empty, collecting the dequeued messages
in the order the stream loop would emit them as `message` events (each
`get` removes one element, so `q.length` steps always suffice). -/
def drainList {α : Type} (q : List α) : List α :=
  drainAux q.length q

/-- The `finally` cleanup of the SSE event generator (`server.py` lines
287–291): `if session_id in active_sessions: del active_sessions[session_id]`.
Only the session mapping is removed; the queue object itself is untouched. -/
def sse_cleanup (st : ServerState) (session_id : String) : ServerState :=
  if (dictGet st.sessions session_id).isSome then
    { st with sessions := dictDel st.sessions session_id }
  else
    st

/-- The body of a POST to `/message` as the handler sees it: either
`request.json()` raised (with the exception's text), or it produced one
protocol message. -/
inductive PostBody where
  | malformed (errText : String)
  | msg (m : InMessage)
deriving DecidableEq, Repr

/-- An HTTP response body: the plain-text `"Accepted"` acknowledgement, or a
`JSONResponse` whose content is an object with one `"error"` field. -/
inductive Body where
  | text (s : String)
  | errorJson (msg : String)
deriving DecidableEq, Repr

/-- An HTTP response: status code and body. -/
structure HttpResponse where
  status : Nat
  body : Body
deriving DecidableEq, Repr

/-- `message_endpoint` (`server.py` lines 296–336).  Looks up the session;
if absent, answers 400 without touching the body.  Otherwise parses the
body (a parse failure is the only exception the `try` block can see, since
`handle_message` is total and `put` on an unbounded queue cannot fail),
dispatches, enqueues any response onto the session's queue, and answers 202
`"Accepted"`. -/
def message_endpoint (st : ServerState) (sessionId : String)
    (body : PostBody) (rng : RandState) :
    HttpResponse × ServerState × RandState :=
  match dictGet st.sessions sessionId with
  | none => (⟨400, .errorJson "No active session found"⟩, st, rng)
  | some qid =>
      match body with
      | .malformed errText => (⟨500, .errorJson errText⟩, st, rng)
      | .msg m =>
          let dispatched := handle_message m rng
          match dispatched.1 with
          | some r =>
              (⟨202, .text "Accepted"⟩,
               { st with queues := heapPut st.queues qid r }, dispatched.2)
          | none => (⟨202, .text "Accepted"⟩, st, dispatched.2)

/-- `message_endpoint` interleaved with a concurrent session destruction at
the only suspension point between the lookup and the enqueue (`await
request.json()`): the handler has already bound `message_queue` to the queue
object, destruction then deletes the session-map entry, and the handler
continues with its obtained reference. -/
def message_endpoint_raced (st : ServerState) (sessionId : String)
    (body : PostBody) (rng : RandState) :
    HttpResponse × ServerState × RandState :=
  match dictGet st.sessions sessionId with
  | none => (⟨400, .errorJson "No active session found"⟩, st, rng)
  | some qid =>
      let st' := sse_cleanup st sessionId
      match body with
      | .malformed errText => (⟨500, .errorJson errText⟩, st', rng)
      | .msg m =>
          let dispatched := handle_message m rng
          match dispatched.1 with
          | some r =>
              (⟨202, .text "Accepted"⟩,
               { st' with queues := heapPut st'.queues qid r }, dispatched.2)
          | none => (⟨202, .text "Accepted"⟩, st', dispatched.2)

/-! ## General lemmas about the embedded data structures -/

theorem dictGet_dictDel_self {κ α : Type} [DecidableEq κ]
    (d : List (κ × α)) (k : κ) : dictGet (dictDel d k) k = none := by
  induction d with
  | nil => rfl
  | cons kv rest ih =>
      obtain ⟨k', v⟩ := kv
      by_cases h : k' = k
      · simpa [dictDel, h] using ih
      · simpa [dictDel, dictGet, h] using ih

theorem dictGet_dictDel_ne {κ α : Type} [DecidableEq κ]
    (d : List (κ × α)) (k k' : κ) (hne : k' ≠ k) :
    dictGet (dictDel d k) k' = dictGet d k' := by
  induction d with
  | nil => rfl
  | cons kv rest ih =>
      obtain ⟨k'', v⟩ := kv
      by_cases h : k'' = k
      · simp [dictDel, dictGet, h, hne.symm, ih]
      · by_cases h' : k'' = k'
        · simp [dictDel, dictGet, h, h', hne]
        · simp [dictDel, dictGet, h, h', ih]

theorem dictDel_of_get_none {κ α : Type} [DecidableEq κ]
    (d : List (κ × α)) (k : κ) (h : dictGet d k = none) : dictDel d k = d := by
  induction d with
  | nil => rfl
  | cons kv rest ih =>
      obtain ⟨k', v⟩ := kv
      by_cases hk : k' = k
      · simp [dictGet, hk] at h
      · simp [dictGet, hk] at h
        simp [dictDel, hk, ih h]

theorem qContents_heapPut (h : List (Nat × List OutResponse)) (q : Nat)
    (m : OutResponse) :
    qContents (heapPut h q m) q = qContents h q ++ [m] := by
  induction h with
  | nil => simp [heapPut, qContents, dictGet]
  | cons kv rest ih =>
      obtain ⟨q', l⟩ := kv
      by_cases hq : q' = q
      · simp [heapPut, hq, qContents, dictGet]
      · simp [heapPut, hq, qContents, dictGet] at ih ⊢
        exact ih

theorem drainList_id {α : Type} (q : List α) : drainList q = q := by
  induction q with
  | nil => rfl
  | cons x rest ih =>
      simpa [drainList, drainAux, queueGet] using ih

theorem sse_cleanup_sessions (st : ServerState) (sid : String) :
    (sse_cleanup st sid).sessions = dictDel st.sessions sid := by
  cases ho : dictGet st.sessions sid with
  | none => simp [sse_cleanup, ho, dictDel_of_get_none st.sessions sid ho]
  | some q => simp [sse_cleanup, ho]

theorem sse_cleanup_queues (st : ServerState) (sid : String) :
    (sse_cleanup st sid).queues = st.queues := by
  cases ho : dictGet st.sessions sid with
  | none => simp [sse_cleanup, ho]
  | some q => simp [sse_cleanup, ho]

theorem sse_cleanup_of_absent (st : ServerState) (sid : String)
    (h : dictGet st.sessions sid = none) : sse_cleanup st sid = st := by
  simp [sse_cleanup, h]

/-- Helper for C9: every tool except `shuffle_text` ignores the RNG state, so
the tool result is the same under any two RNG states. -/
theorem handle_tool_call_fst_det (name : Option String) (a : Args)
    (rng1 rng2 : RandState) (h : name ≠ some "shuffle_text") :
    (handle_tool_call name a rng1).1 = (handle_tool_call name a rng2).1 := by
  unfold handle_tool_call
  split_ifs <;> simp_all

/-! ## Claim theorems -/

/-- C1, counterexample: the dispatcher keys on the method string, not on the
presence of an id — a message carrying an id but with method
`notifications/initialized` gets no response at all, and a message without
an id but with an unrecognized method gets a response. -/
theorem c1_counterexample :
    (handle_message ⟨some "notifications/initialized", some (.num 1), none⟩
        []).1 = none ∧
    (handle_message ⟨some "unrecognized/method", none, none⟩ []).1
      = some { jsonrpc := "2.0", id := none, result? := none,
               error? := some ⟨-32601,
                 "Method not found: unrecognized/method"⟩ } :=
  ⟨rfl, rfl⟩

/-- C1 (amended): `handle_message` returns no response exactly when the
method is `notifications/initialized` (regardless of whether an id is
present); every other message — with or without an id — gets exactly one
response whose id field echoes the inbound id. -/
theorem c1_response_keyed_on_method (m : InMessage) (rng : RandState) :
    ((handle_message m rng).1 = none ↔
        m.method = some "notifications/initialized") ∧
    (∀ r, (handle_message m rng).1 = some r →
        r.id = m.id ∧ r.jsonrpc = "2.0") := by
  simp only [handle_message]
  split_ifs with h1 h2 h3 h4 h5 <;> simp_all

/-- C1, witness for the amended claim at concrete inputs. -/
theorem c1_witness :
    (handle_message ⟨some "notifications/initialized", none, none⟩ []).1
      = none ∧
    ({ jsonrpc := "2.0", id := some (RpcId.num 7),
       result? := some ResultPayload.empty, error? := none }
        : OutResponse).id
      = (⟨some "ping", some (RpcId.num 7), none⟩ : InMessage).id :=
  ⟨(c1_response_keyed_on_method
      ⟨some "notifications/initialized", none, none⟩ []).1.mpr rfl,
   ((c1_response_keyed_on_method
      ⟨some "ping", some (RpcId.num 7), none⟩ []).2 _ (by decide)).1⟩

/-- C4: for every method value other than the five recognized ones —
including a missing method — `handle_message` returns a response whose error
object has code −32601 and whose message string contains the offending
method name (as Python renders it) as a suffix. -/
theorem c4_unknown_method_total (m : InMessage) (rng : RandState)
    (h1 : m.method ≠ some "initialize")
    (h2 : m.method ≠ some "notifications/initialized")
    (h3 : m.method ≠ some "tools/list")
    (h4 : m.method ≠ some "tools/call")
    (h5 : m.method ≠ some "ping") :
    (handle_message m rng).1
      = some { jsonrpc := "2.0", id := m.id, result? := none,
               error? := some ⟨-32601,
                 "Method not found: " ++ pyStr m.method⟩ } ∧
    (∀ name, m.method = some name →
        name.data <:+ ("Method not found: " ++ pyStr m.method).data) := by
  constructor
  · simp [handle_message, h1, h2, h3, h4, h5]
  · intro name hn
    rw [hn]
    show name.data <:+ ("Method not found: " ++ name).data
    rw [String.data_append]
    exact List.suffix_append _ _

/-- C4, witness at a concrete unrecognized method. -/
theorem c4_witness :
    (handle_message ⟨some "unknown/x", some (RpcId.num 3), none⟩ []).1
      = some { jsonrpc := "2.0", id := some (RpcId.num 3), result? := none,
               error? := some ⟨-32601, "Method not found: unknown/x"⟩ } :=
  (c4_unknown_method_total ⟨some "unknown/x", some (RpcId.num 3), none⟩ []
    (by decide) (by decide) (by decide) (by decide) (by decide)).1

/-- C9, counterexample: `handle_message` is not a deterministic function of
the inbound message alone — a `tools/call` of `shuffle_text` on `"ab"`
produces different responses under two different RNG states. -/
theorem c9_counterexample :
    (handle_message ⟨some "tools/call", some (.num 1),
        some ⟨some "shuffle_text", some ⟨some "ab"⟩⟩⟩ [0]).1
      ≠ (handle_message ⟨some "tools/call", some (.num 1),
        some ⟨some "shuffle_text", some ⟨some "ab"⟩⟩⟩ [1]).1 := by
  decide

/-- C9 (amended): the dispatcher is deterministic on every message except a
`tools/call` whose tool name is `shuffle_text` — for any such message the
response is the same under any two RNG states. -/
theorem c9_deterministic_except_shuffle (m : InMessage)
    (rng1 rng2 : RandState)
    (h : ¬(m.method = some "tools/call" ∧
          (m.params.getD ⟨none, none⟩).name = some "shuffle_text")) :
    (handle_message m rng1).1 = (handle_message m rng2).1 := by
  simp only [handle_message]
  split_ifs with h1 h2 h3 h4 h5 <;> try rfl
  have hname : (m.params.getD ⟨none, none⟩).name ≠ some "shuffle_text" :=
    fun hs => h ⟨h4, hs⟩
  simp [handle_tool_call_fst_det _ _ rng1 rng2 hname]

/-- C9, witness for the amended claim: a `reverse_text` call is insensitive
to the RNG state. -/
theorem c9_witness :
    (handle_message ⟨some "tools/call", some (RpcId.num 2),
        some ⟨some "reverse_text", some ⟨some "abc"⟩⟩⟩ [5]).1
      = (handle_message ⟨some "tools/call", some (RpcId.num 2),
        some ⟨some "reverse_text", some ⟨some "abc"⟩⟩⟩ [9]).1 :=
  c9_deterministic_except_shuffle
    ⟨some "tools/call", some (RpcId.num 2),
      some ⟨some "reverse_text", some ⟨some "abc"⟩⟩⟩ [5] [9] (by decide)

/-- C2: for every POST to the message endpoint whose session identity is
registered and whose body parses as a protocol message, the handler returns
status 202 with the fixed acknowledgement body (no RPC result), and any
response the dispatcher produced is appended to that session's queue rather
than returned in the HTTP body. -/
theorem c2_post_acknowledged_response_enqueued (st : ServerState)
    (sid : String) (m : InMessage) (rng : RandState)
    (h : (dictGet st.sessions sid).isSome) :
    (message_endpoint st sid (.msg m) rng).1 = ⟨202, .text "Accepted"⟩ ∧
    (∀ r, (handle_message m rng).1 = some r →
      ∃ qid, dictGet st.sessions sid = some qid ∧
        qContents (message_endpoint st sid (.msg m) rng).2.1.queues qid
          = qContents st.queues qid ++ [r]) := by
  obtain ⟨qid, hq⟩ := Option.isSome_iff_exists.mp h
  constructor
  · simp only [message_endpoint, hq]
    cases hr : (handle_message m rng).1 <;> simp [hr]
  · intro r hr
    refine ⟨qid, hq, ?_⟩
    simp only [message_endpoint, hq, hr]
    simp [qContents_heapPut]

/-- C2, witness at a concrete state and message. -/
theorem c2_witness :
    ((dictGet (⟨[("s", 0)], []⟩ : ServerState).sessions "s").isSome) ∧
    (message_endpoint ⟨[("s", 0)], []⟩ "s"
        (.msg ⟨some "ping", some (RpcId.num 1), none⟩) []).1
      = ⟨202, .text "Accepted"⟩ :=
  ⟨by decide,
   (c2_post_acknowledged_response_enqueued ⟨[("s", 0)], []⟩ "s"
      ⟨some "ping", some (RpcId.num 1), none⟩ [] (by decide)).1⟩

/-- C3: for every POST with a session identity not present in the session
store, the handler returns 400 with the documented error body, leaving the
state and RNG untouched and never reading or dispatching the request body
(the result is the same for every body, parseable or not). -/
theorem c3_unknown_session_400 (st : ServerState) (sid : String)
    (body : PostBody) (rng : RandState)
    (h : dictGet st.sessions sid = none) :
    message_endpoint st sid body rng
      = (⟨400, .errorJson "No active session found"⟩, st, rng) := by
  simp [message_endpoint, h]

/-- C3, witness at a concrete empty store. -/
theorem c3_witness :
    (dictGet (⟨[], []⟩ : ServerState).sessions "nope" = none) ∧
    message_endpoint ⟨[], []⟩ "nope"
        (.msg ⟨some "ping", some (RpcId.num 1), none⟩) []
      = (⟨400, .errorJson "No active session found"⟩, ⟨[], []⟩, []) :=
  ⟨rfl, c3_unknown_session_400 ⟨[], []⟩ "nope"
      (.msg ⟨some "ping", some (RpcId.num 1), none⟩) [] rfl⟩

/-- C5: for every `tools/call` whose tool name matches no entry of the tool
registry `TOOLS`, the dispatcher returns a successful response envelope (no
JSON-RPC error object) whose result content is the single text block
`"Unknown tool: <name>"` with the `isError` flag set. -/
theorem c5_unknown_tool_flagged (m : InMessage) (rng : RandState)
    (hm : m.method = some "tools/call")
    (hn : ∀ t ∈ TOOLS,
        some t.name ≠ (m.params.getD ⟨none, none⟩).name) :
    (handle_message m rng).1
      = some { jsonrpc := "2.0", id := m.id,
               result? := some (.toolCall
                 ⟨[⟨"text", "Unknown tool: "
                     ++ pyStr (m.params.getD ⟨none, none⟩).name⟩], true⟩),
               error? := none } := by
  have h1 := (hn ⟨"reverse_text",
    "Reverses the order of characters in the given text",
    "The text to reverse"⟩ (by simp [TOOLS])).symm
  have h2 := (hn ⟨"uppercase_text", "Converts text to uppercase",
    "The text to convert to uppercase"⟩ (by simp [TOOLS])).symm
  have h3 := (hn ⟨"lowercase_text", "Converts text to lowercase",
    "The text to convert to lowercase"⟩ (by simp [TOOLS])).symm
  have h4 := (hn ⟨"word_count", "Counts the number of words in the given text",
    "The text to count words in"⟩ (by simp [TOOLS])).symm
  have h5 := (hn ⟨"character_count",
    "Counts the number of characters (including spaces) in the given text",
    "The text to count characters in"⟩ (by simp [TOOLS])).symm
  have h6 := (hn ⟨"shuffle_text",
    "Randomly shuffles the characters in the given text",
    "The text to shuffle"⟩ (by simp [TOOLS])).symm
  simp [handle_message, handle_tool_call, hm, h1, h2, h3, h4, h5, h6]

/-- C5, witness at the spec scenario `"not_a_tool"`. -/
theorem c5_witness :
    (handle_message ⟨some "tools/call", some (RpcId.num 4),
        some ⟨some "not_a_tool", none⟩⟩ []).1
      = some { jsonrpc := "2.0", id := some (RpcId.num 4),
               result? := some (.toolCall
                 ⟨[⟨"text", "Unknown tool: not_a_tool"⟩], true⟩),
               error? := none } := by
  simpa using c5_unknown_tool_flagged
    ⟨some "tools/call", some (RpcId.num 4), some ⟨some "not_a_tool", none⟩⟩
    [] rfl (by simp [TOOLS])

/-- C6: for every `tools/call` of `reverse_text`, the response result content
is exactly one text block `"Reversed text: "` followed by the character-wise
reversal of the `text` argument, which defaults to the empty string when
absent. -/
theorem c6_reverse_text_output (m : InMessage) (p : Params) (rng : RandState)
    (hm : m.method = some "tools/call") (hp : m.params = some p)
    (hn : p.name = some "reverse_text") :
    (handle_message m rng).1
      = some { jsonrpc := "2.0", id := m.id,
               result? := some (.toolCall
                 ⟨[⟨"text", "Reversed text: " ++ String.mk
                     ((p.arguments.getD ⟨none⟩).text.getD "").data.reverse⟩],
                  false⟩),
               error? := none } := by
  simp [handle_message, handle_tool_call, hm, hp, hn]

/-- C6, witness: `"abc"` reverses to `"cba"`, and an absent `text` argument
defaults to the empty string. -/
theorem c6_witness :
    (handle_message ⟨some "tools/call", some (RpcId.num 5),
        some ⟨some "reverse_text", some ⟨some "abc"⟩⟩⟩ []).1
      = some { jsonrpc := "2.0", id := some (RpcId.num 5),
               result? := some (.toolCall
                 ⟨[⟨"text", "Reversed text: cba"⟩], false⟩),
               error? := none } ∧
    (handle_message ⟨some "tools/call", some (RpcId.num 6),
        some ⟨some "reverse_text", some ⟨none⟩⟩⟩ []).1
      = some { jsonrpc := "2.0", id := some (RpcId.num 6),
               result? := some (.toolCall
                 ⟨[⟨"text", "Reversed text: "⟩], false⟩),
               error? := none } := by
  constructor
  · simpa using c6_reverse_text_output
      ⟨some "tools/call", some (RpcId.num 5),
        some ⟨some "reverse_text", some ⟨some "abc"⟩⟩⟩
      ⟨some "reverse_text", some ⟨some "abc"⟩⟩ [] rfl rfl rfl
  · simpa using c6_reverse_text_output
      ⟨some "tools/call", some (RpcId.num 6),
        some ⟨some "reverse_text", some ⟨none⟩⟩⟩
      ⟨some "reverse_text", some ⟨none⟩⟩ [] rfl rfl rfl

/-- C7: per-session FIFO delivery — enqueuing `m1`, `m2`, `m3` onto a
session's (initially empty) queue and then draining it the way the stream
loop does yields exactly `[m1, m2, m3]`. -/
theorem c7_fifo_delivery (st : ServerState) (qid : Nat)
    (m1 m2 m3 : OutResponse)
    (h : qContents st.queues qid = []) :
    drainList (qContents
        (heapPut (heapPut (heapPut st.queues qid m1) qid m2) qid m3) qid)
      = [m1, m2, m3] := by
  simp [qContents_heapPut, h, drainList_id]

/-- C7, witness at a concrete empty state and three distinct responses. -/
theorem c7_witness :
    (qContents (⟨[], []⟩ : ServerState).queues 0 = []) ∧
    drainList (qContents (heapPut (heapPut (heapPut
        (⟨[], []⟩ : ServerState).queues 0
        { jsonrpc := "2.0", id := some (RpcId.num 1),
          result? := some .empty, error? := none }) 0
        { jsonrpc := "2.0", id := some (RpcId.num 2),
          result? := some .empty, error? := none }) 0
        { jsonrpc := "2.0", id := some (RpcId.num 3),
          result? := some .empty, error? := none }) 0)
      = [{ jsonrpc := "2.0", id := some (RpcId.num 1),
           result? := some .empty, error? := none },
         { jsonrpc := "2.0", id := some (RpcId.num 2),
           result? := some .empty, error? := none },
         { jsonrpc := "2.0", id := some (RpcId.num 3),
           result? := some .empty, error? := none }] :=
  ⟨rfl, c7_fifo_delivery ⟨[], []⟩ 0 _ _ _ rfl⟩

/-- C8: session destruction is idempotent — cleaning up the same identity
twice leaves the state exactly as cleaning once (the second run finds the
key absent and raises nothing), other sessions' entries are untouched, and
the queue heap is never modified by cleanup. -/
theorem c8_cleanup_idempotent (st : ServerState) (sid sid' : String)
    (h : sid' ≠ sid) :
    sse_cleanup (sse_cleanup st sid) sid = sse_cleanup st sid ∧
    dictGet (sse_cleanup st sid).sessions sid' = dictGet st.sessions sid' ∧
    (sse_cleanup st sid).queues = st.queues := by
  refine ⟨?_, ?_, sse_cleanup_queues st sid⟩
  · refine sse_cleanup_of_absent _ _ ?_
    rw [sse_cleanup_sessions]
    exact dictGet_dictDel_self _ _
  · rw [sse_cleanup_sessions]
    exact dictGet_dictDel_ne _ _ _ h

/-- C8, witness at a concrete two-session store. -/
theorem c8_witness :
    ("b" ≠ "a") ∧
    (sse_cleanup (sse_cleanup ⟨[("a", 0), ("b", 1)], []⟩ "a") "a"
      = sse_cleanup ⟨[("a", 0), ("b", 1)], []⟩ "a") :=
  ⟨by decide,
   (c8_cleanup_idempotent ⟨[("a", 0), ("b", 1)], []⟩ "a" "b" (by decide)).1⟩

/-- C10: once the intake handler has resolved the session to its queue, a
destruction of that session interleaved before the enqueue cannot make the
enqueue fail — the handler still returns 202 and the response still lands on
the already-obtained queue object, because destruction only removes the
identity-to-queue mapping and leaves the queue heap untouched. -/
theorem c10_enqueue_survives_destruction (st : ServerState) (sid : String)
    (m : InMessage) (rng : RandState)
    (h : (dictGet st.sessions sid).isSome) :
    (message_endpoint_raced st sid (.msg m) rng).1
      = ⟨202, .text "Accepted"⟩ ∧
    (∀ r, (handle_message m rng).1 = some r →
      ∃ qid, dictGet st.sessions sid = some qid ∧
        qContents (message_endpoint_raced st sid (.msg m) rng).2.1.queues qid
          = qContents st.queues qid ++ [r]) := by
  obtain ⟨qid, hq⟩ := Option.isSome_iff_exists.mp h
  constructor
  · simp only [message_endpoint_raced, hq]
    cases hr : (handle_message m rng).1 <;> simp [hr]
  · intro r hr
    refine ⟨qid, hq, ?_⟩
    simp only [message_endpoint_raced, hq, hr]
    simp [qContents_heapPut, sse_cleanup_queues]

/-- C10, witness at a concrete state and message. -/
theorem c10_witness :
    ((dictGet (⟨[("s", 0)], []⟩ : ServerState).sessions "s").isSome) ∧
    (message_endpoint_raced ⟨[("s", 0)], []⟩ "s"
        (.msg ⟨some "ping", some (RpcId.num 1), none⟩) []).1
      = ⟨202, .text "Accepted"⟩ :=
  ⟨by decide,
   (c10_enqueue_survives_destruction ⟨[("s", 0)], []⟩ "s"
      ⟨some "ping", some (RpcId.num 1), none⟩ [] (by decide)).1⟩

end MCPServer

